import Mathlib

/-!
Verification of the SC Retail Property Scrubber (cre_scrub_tool.py and
cre_scrub_tool_join.py) against its natural-language specification.

The pipeline's pure logic is shallowly embedded: Python strings are lists of
character codepoints, spreadsheet cells are an inductive type, DataFrame
operations (column renaming, numeric cleaning, key derivation, left merge,
filter mask) are Lean functions translated from the two scripts.
-/

namespace CreScrub

/-- Python strings, modelled as lists of character codepoints. -/
abbrev Str := List Nat

/-- Embed a Lean string literal as a codepoint list. -/
def S (s : String) : Str := s.data.map Char.toNat

/-- Whitespace class of Python str.strip (ASCII portion). -/
def isWS (c : Nat) : Bool :=
  decide (c = 32 ∨ c = 9 ∨ c = 10 ∨ c = 13 ∨ c = 11 ∨ c = 12)

/-- Python str.lower on one codepoint (ASCII letters). -/
def lc (c : Nat) : Nat := if 65 ≤ c ∧ c ≤ 90 then c + 32 else c

/-- Python str.upper on one codepoint (ASCII letters). -/
def uc (c : Nat) : Nat := if 97 ≤ c ∧ c ≤ 122 then c - 32 else c

/-- Python str.lower. -/
def pyLower (s : Str) : Str := s.map lc

/-- Python str.upper. -/
def pyUpper (s : Str) : Str := s.map uc

/-- Python str.strip: drop leading and trailing whitespace. -/
def pyStrip (s : Str) : Str :=
  (s.dropWhile isWS).rdropWhile isWS

/-- A spreadsheet cell: missing (NaN/NA), text, or a number.  Numeric cells
only arise in the embedded pipeline as the output of numeric cleaning, which
produces nonnegative decimal values. -/
inductive Cell where
  | null : Cell
  | str : Str → Cell
  | num : ℚ → Cell
deriving DecidableEq

/-- Whether a cell is missing (pd.isna). -/
def Cell.isNull : Cell → Bool
  | Cell.null => true
  | _ => false

/-- Python str(val) as pandas astype(str) applies it to cells: NaN renders as
the three-letter string nan.  Numeric cells never reach str() in the modelled
pipeline (keys are derived from raw text columns); they are mapped to the
empty string. -/
def cellPyStr : Cell → Str
  | Cell.null => S ("nan")
  | Cell.str s => s
  | Cell.num _ => S ("")

/-- ASCII digit test on a codepoint. -/
def isDigitC (c : Nat) : Bool := 48 ≤ c && c ≤ 57

/-- re.sub applied with the pattern that keeps only digits and the dot
(codepoint 46), as in _clean_numeric. -/
def stripNonNumeric (s : Str) : Str :=
  s.filter (fun c => isDigitC c || c == 46)

/-- Decimal value of a digit string. -/
def digitsToNat (s : Str) : Nat := s.foldl (fun a c => a * 10 + (c - 48)) 0

/-- pd.to_numeric(residue, errors = coerce) on a digits-and-dots residue:
parses when there is at most one dot and at least one digit, else NaN. -/
def parseCleaned (s : Str) : Option ℚ :=
  if s.count 46 ≤ 1 && s.any isDigitC then
    let ip := s.takeWhile (fun c => c ≠ 46)
    let fp := (s.dropWhile (fun c => c ≠ 46)).drop 1
    some (mkRat (digitsToNat ip * 10 ^ fp.length + digitsToNat fp) (10 ^ fp.length))
  else none

/-- _clean_numeric (cre_scrub_tool.py lines 81-87, cre_scrub_tool_join.py
lines 74-78): return NA on missing input, otherwise strip every character
that is not a digit or dot from str(val) and coerce; never fails.  On a
numeric cell, str-then-strip-then-parse discards a minus sign and is the
identity on nonnegative decimal values, hence the absolute value. -/
def clean_numeric : Cell → Option ℚ
  | Cell.null => none
  | Cell.str s => parseCleaned (stripNonNumeric s)
  | Cell.num q => some |q|

example : clean_numeric (Cell.str (S ("$12,345 SF"))) = some 12345 := by decide
example : clean_numeric (Cell.str (S (""))) = none := by decide
example : clean_numeric (Cell.str (S ("1,234.56.78"))) = none := by decide
example : clean_numeric (Cell.str (S ("-2000"))) = some 2000 := by decide
example : clean_numeric (Cell.str (S ("12.5"))) = some (mkRat 25 2) := by decide
example : pyStrip (S ("  a b  ")) = S ("a b") := by decide
example : pyLower (S ("Main St.")) = S ("main st.") := by decide

/-- The normalised join key of one string value, as both scripts compute it:
astype(str).str.strip().str.lower(). -/
def address_key (s : Str) : Str := pyLower (pyStrip s)

/-- Join-key derivation applied to one cell (the astype(str) step renders a
missing address as the string nan). -/
def derive_key (c : Cell) : Str := address_key (cellPyStr c)

theorem lc_lc (c : Nat) : lc (lc c) = lc c := by
  unfold lc; split_ifs <;> omega

theorem isWS_lc (c : Nat) : isWS (lc c) = isWS c := by
  unfold isWS lc
  split_ifs with h
  · rw [decide_eq_decide]; omega
  · rfl

theorem comp_isWS_lc : (isWS ∘ lc) = isWS := by
  funext c; exact isWS_lc c

theorem dropWhile_isWS_pyLower (s : Str) :
    (pyLower s).dropWhile isWS = pyLower (s.dropWhile isWS) := by
  unfold pyLower
  rw [List.dropWhile_map, comp_isWS_lc]

theorem rdropWhile_isWS_pyLower (s : Str) :
    (pyLower s).rdropWhile isWS = pyLower (s.rdropWhile isWS) := by
  unfold pyLower List.rdropWhile
  rw [← List.map_reverse, List.dropWhile_map, comp_isWS_lc, List.map_reverse]

theorem pyStrip_pyLower (s : Str) : pyStrip (pyLower s) = pyLower (pyStrip s) := by
  unfold pyStrip
  rw [dropWhile_isWS_pyLower, rdropWhile_isWS_pyLower]

theorem pyLower_idem (s : Str) : pyLower (pyLower s) = pyLower s := by
  unfold pyLower
  rw [List.map_map]
  congr 1
  exact funext lc_lc

theorem dropWhile_eq_self_of_leading {u t : Str}
    (hpre : u <+: t) (ht : t.dropWhile isWS = t) : u.dropWhile isWS = u := by
  cases u with
  | nil => rfl
  | cons a u2 =>
    obtain ⟨k, hk⟩ := hpre
    cases t with
    | nil => simp at hk
    | cons b t2 =>
      rw [List.cons_append] at hk
      injection hk with hab hk2
      rw [List.dropWhile_cons] at ht ⊢
      rw [hab]
      split_ifs with h
      · rw [if_pos h] at ht
        have hle := (List.dropWhile_suffix (l := t2) isWS).sublist.length_le
        rw [ht] at hle
        simp at hle
      · rfl

theorem pyStrip_dropWhile (s : Str) : (pyStrip s).dropWhile isWS = pyStrip s := by
  unfold pyStrip
  exact dropWhile_eq_self_of_leading ( List.rdropWhile_prefix isWS (s.dropWhile isWS))
    (List.dropWhile_idempotent isWS s)

theorem pyStrip_idem (s : Str) : pyStrip (pyStrip s) = pyStrip s := by
  show ((pyStrip s).dropWhile isWS).rdropWhile isWS = pyStrip s
  rw [pyStrip_dropWhile]
  unfold pyStrip
  exact List.rdropWhile_idempotent isWS (s.dropWhile isWS)

theorem address_key_idem (s : Str) : address_key (address_key s) = address_key s := by
  unfold address_key
  rw [pyStrip_pyLower, pyStrip_idem, pyLower_idem]

/-- Whether needle occurs as a contiguous substring of hay. -/
def isSubstrOf (needle hay : Str) : Bool :=
  (List.range (hay.length + 1)).any (fun i => needle.isPrefixOf (hay.drop i))

/-- One row restricted to the fields the retail/SC/size mask reads. -/
structure FRow where
  property_type : Cell
  state : Cell
  size_sf : Option ℚ
deriving DecidableEq

/-- astype(str).str.contains with case = False, na = False. -/
def retail_mask_type (pt : Cell) : Bool :=
  isSubstrOf (S ("retail")) (pyLower (cellPyStr pt))

/-- df.str.upper() == SC: the str accessor leaves a missing or non-string
value as NaN, and NaN == SC is elementwise False. -/
def state_mask : Cell → Bool
  | Cell.str s => pyUpper s == S ("SC")
  | _ => false

/-- Series.between(1500, 30000, inclusive = both): NaN compares False. -/
def size_between (q : Option ℚ) : Bool :=
  match q with
  | none => false
  | some v => decide (1500 ≤ v) && decide (v ≤ 30000)

/-- The join-variant filter mask on one row (cre_scrub_tool_join.py lines
150-156): three factors combined with boolean and. -/
def join_filter_row (r : FRow) : Bool :=
  retail_mask_type r.property_type && (state_mask r.state && size_between r.size_sf)

/-- merged.loc[mask] in the join variant. -/
def join_filter (rows : List FRow) : List FRow := rows.filter join_filter_row

/-- Pandas three-valued (Kleene) booleans: True, False, NA. -/
inductive TB where
  | t : TB
  | f : TB
  | na : TB
deriving DecidableEq

/-- Kleene conjunction, as pd.NA implements the and operator. -/
def tand : TB → TB → TB
  | TB.f, _ => TB.f
  | _, TB.f => TB.f
  | TB.t, TB.t => TB.t
  | _, _ => TB.na

/-- Lift an honest boolean into the Kleene lattice. -/
def ofBool (b : Bool) : TB := if b then TB.t else TB.f

/-- The standalone variant compares the cleaned size column with >= and <=
(cre_scrub_tool.py lines 119-120); a pd.NA entry propagates NA. -/
def size_cmp_tool (q : Option ℚ) : TB :=
  match q with
  | none => TB.na
  | some v => ofBool (decide (1500 ≤ v) && decide (v ≤ 30000))

/-- The standalone-variant mask on one row (cre_scrub_tool.py lines 116-121),
in Kleene logic because the size column can hold pd.NA. -/
def tool_mask_row (r : FRow) : TB :=
  tand (ofBool (retail_mask_type r.property_type))
    (tand (ofBool (state_mask r.state)) (size_cmp_tool r.size_sf))

instance {ε α : Type} [DecidableEq ε] [DecidableEq α] : DecidableEq (Except ε α) := fun a b =>
  match a, b with
  | Except.error e, Except.error f =>
      if h : e = f then isTrue (by rw [h]) else isFalse (by intro hc; cases hc; exact h rfl)
  | Except.ok x, Except.ok y =>
      if h : x = y then isTrue (by rw [h]) else isFalse (by intro hc; cases hc; exact h rfl)
  | Except.error _, Except.ok _ => isFalse (by intro hc; cases hc)
  | Except.ok _, Except.error _ => isFalse (by intro hc; cases hc)

/-- df.loc[mask] (cre_scrub_tool.py line 122): pandas refuses a boolean mask
containing NA, raising ValueError; otherwise it keeps the True rows. -/
def tool_filter (rows : List FRow) : Except Unit (List FRow) :=
  if rows.any (fun r => tool_mask_row r == TB.na) then Except.error ()
  else Except.ok (rows.filter (fun r => tool_mask_row r == TB.t))

/-- The filter predicate exactly as the specification words it: property_type
non-null and containing retail case-insensitively, state non-null and
case-insensitively equal to SC, size non-null and within [1500, 30000]. -/
def claimed_filter_row (r : FRow) : Bool :=
  (match r.property_type with
   | Cell.str s => isSubstrOf (S ("retail")) (pyLower s)
   | _ => false)
  && ((match r.state with
       | Cell.str s => pyUpper s == S ("SC")
       | _ => false)
      && (match r.size_sf with
          | none => false
          | some v => decide (1500 ≤ v) && decide (v ≤ 30000)))

example : join_filter_row ⟨Cell.str (S ("Retail Strip")), Cell.str (S ("sc")), some 5000⟩ = true := by decide
example : join_filter_row ⟨Cell.null, Cell.str (S ("SC")), some 5000⟩ = false := by decide
example : tool_filter [⟨Cell.str (S ("Retail")), Cell.str (S ("SC")), none⟩] = Except.error () := by decide
example : tool_filter [⟨Cell.str (S ("Office")), Cell.str (S ("SC")), none⟩] = Except.ok [] := by decide

/-- An ownership row after column selection: join key plus company fields. -/
structure OwnRow where
  address_key : Str
  company_name : Option Str
  company_address : Option Str
  company_phone : Option Str
deriving DecidableEq

/-- A property row: join key plus the fields the later filter reads. -/
structure PropRow where
  address_key : Str
  property_type : Cell
  state : Cell
  size_sf : Option ℚ
deriving DecidableEq

/-- A merged row: property fields plus attached ownership fields. -/
structure MergedRow where
  address_key : Str
  property_type : Cell
  state : Cell
  size_sf : Option ℚ
  company_name : Option Str
  company_address : Option Str
  company_phone : Option Str
deriving DecidableEq

/-- A property row with one matching ownership row attached. -/
def attach (p : PropRow) (o : OwnRow) : MergedRow :=
  ⟨p.address_key, p.property_type, p.state, p.size_sf,
   o.company_name, o.company_address, o.company_phone⟩

/-- An unmatched property row: ownership fields are null. -/
def attachNull (p : PropRow) : MergedRow :=
  ⟨p.address_key, p.property_type, p.state, p.size_sf, none, none, none⟩

/-- prop_df.merge(owners, on = address_key, how = left), cre_scrub_tool_join.py
lines 143-147 and cre_scrub_tool.py lines 285-289: every left row is kept in
order; a left row is repeated once per right row with an equal key, and gets
null ownership fields when no right key is equal. -/
def merged : List PropRow → List OwnRow → List MergedRow
  | [], _ => []
  | p :: ps, owners =>
    (match owners.filter (fun o => o.address_key == p.address_key) with
     | [] => [attachNull p]
     | m :: ms => (m :: ms).map (attach p)) ++ merged ps owners

/-- The columns the merge call selects from the ownership frame. -/
def REQ_OWNER_COLS : List String :=
  [("address_key"), ("company_name"), ("company_address"), ("company_phone")]

/-- The columns of the fallback pd.DataFrame(columns = [address_key]) used
when no sheet classified as ownership. -/
def EMPTY_OWNERS_COLS : List String := [("address_key")]

/-- Pandas column selection df[req]: raises KeyError when any requested
column is absent. -/
def select_columns (req present : List String) : Except Unit (List String) :=
  if req.all (fun c => present.contains c) then Except.ok req else Except.error ()

example :
    (merged [⟨S ("k"), Cell.null, Cell.null, none⟩]
      [⟨S ("k"), some (S ("Acme")), none, none⟩, ⟨S ("k"), some (S ("Bravo")), none, none⟩]).length = 2 := by
  decide

example : select_columns REQ_OWNER_COLS EMPTY_OWNERS_COLS = Except.error () := by decide

example :
    merged [⟨[], Cell.null, Cell.null, none⟩] [⟨[], some (S ("Acme")), none, none⟩]
      = [⟨[], Cell.null, Cell.null, none, some (S ("Acme")), none, none⟩] := by decide

/-- A sheet: a header row and data rows aligned positionally with it. -/
structure Sheet where
  headers : List String
  rows : List (List Cell)
deriving DecidableEq

/-- All rows have one cell per header. -/
def SheetWF (sh : Sheet) : Prop := ∀ r ∈ sh.rows, r.length = sh.headers.length

instance (sh : Sheet) : Decidable (SheetWF sh) := by
  unfold SheetWF; infer_instance

/-- COLUMN_MAP of the join variant (cre_scrub_tool_join.py lines 33-57). -/
def JOIN_COLUMN_MAP : List (String × String) :=
  [("Property Name", "property_name"), ("Name", "property_name"), ("Property", "property_name"),
   ("Address", "address"), ("Street Address", "address"), ("Property Address", "address"),
   ("City", "city"), ("State", "state"), ("State/Province", "state"),
   ("Property Type", "property_type"), ("Type", "property_type"),
   ("Property Subtype", "property_type"), ("Primary Use", "property_type"),
   ("RBA", "size_sf"), ("Rentable Building Area", "size_sf"), ("Building Size (SF)", "size_sf"),
   ("GLA", "size_sf"), ("Gross Leasable Area", "size_sf"), ("Total Available Space (SF)", "size_sf"),
   ("Company Name", "company_name"), ("Company Address", "company_address"),
   ("Phone", "company_phone"), ("Owner Phone", "company_phone")]

/-- COLUMN_MAP of the standalone variant (cre_scrub_tool.py lines 34-63). -/
def TOOL_COLUMN_MAP : List (String × String) :=
  [("Property Name", "property_name"), ("Name", "property_name"), ("Property", "property_name"),
   ("Address", "address"), ("Street Address", "address"), ("Property Address", "address"),
   ("City", "city"), ("State", "state"), ("State/Province", "state"), ("Market", "market"),
   ("Property Type", "property_type"), ("Type", "property_type"),
   ("Property Subtype", "property_type"), ("Primary Use", "property_type"),
   ("Owner Name", "owner_name"), ("Owner", "owner_name"), ("Ownership", "owner_name"),
   ("Owner Phone", "owner_phone"), ("Owner Primary Phone", "owner_phone"),
   ("Contact Number", "owner_phone"), ("Primary Contact", "contact_name"),
   ("Contact Name", "contact_name"), ("Contact Phone", "contact_phone"),
   ("Asking Price", "asking_price"), ("Price", "asking_price"),
   ("Company Name", "company_name"), ("Company Address", "company_address"),
   ("Company Phone", "company_phone")]

/-- COLUMN_MAP.get(c, c): rename a header or keep it. -/
def lookupMap (m : List (String × String)) (h : String) : String :=
  match m.find? (fun kv => kv.1 == h) with
  | some kv => kv.2
  | none => h

/-- df.rename(columns = ...) applied to the header row. -/
def renameHeaders (m : List (String × String)) (hs : List String) : List String :=
  hs.map (lookupMap m)

/-- df.rename(columns = ...) on a sheet. -/
def rename_sheet (m : List (String × String)) (sh : Sheet) : Sheet :=
  ⟨renameHeaders m sh.headers, sh.rows⟩

/-- Position of the first header equal to h. -/
def colIdx (hs : List String) (h : String) : Option Nat :=
  match hs with
  | [] => none
  | a :: t => if a == h then some 0 else (colIdx t h).map (fun i => i + 1)

/-- df[h] for a single-column read: the column at the first header equal to
h, or no cells when the header is absent. -/
def getColumn (sh : Sheet) (h : String) : List Cell :=
  match colIdx sh.headers h with
  | some i => sh.rows.map (fun r => r.getD i Cell.null)
  | none => []

/-- df[h] = vals: overwrite the column at the first header equal to h, or
append a new column. -/
def set_column (sh : Sheet) (h : String) (vals : List Cell) : Sheet :=
  match colIdx sh.headers h with
  | some i => ⟨sh.headers, (sh.rows.zip vals).map (fun rv => rv.1.set i rv.2)⟩
  | none => ⟨sh.headers ++ [h], (sh.rows.zip vals).map (fun rv => rv.1 ++ [rv.2])⟩

/-- The priority-ordered size_cols list of add_size_column
(cre_scrub_tool.py lines 94-101). -/
def SIZE_COLS : List String :=
  [("RBA"), ("Total Available Space (SF)"), ("Rentable Building Area"),
   ("GLA"), ("Gross Leasable Area"), ("Building Size (SF)")]

/-- _clean_numeric as applied elementwise to a column. -/
def cleanCell (c : Cell) : Cell :=
  match clean_numeric c with
  | some q => Cell.num q
  | none => Cell.null

/-- add_size_column (cre_scrub_tool.py lines 93-108): the first size_cols
header present supplies size_sf after cleaning; afterwards, a sheet still
without a size_sf column gets an all-null one. -/
def add_size_column (sh : Sheet) : Sheet :=
  let sh1 :=
    match SIZE_COLS.find? (fun c => sh.headers.contains c) with
    | some col => set_column sh ("size_sf") ((getColumn sh col).map cleanCell)
    | none => sh
  if sh1.headers.contains ("size_sf") then sh1
  else set_column sh1 ("size_sf") (sh1.rows.map (fun _ => Cell.null))

/-- Size resolution as the specification words it: the first candidate header
present among the sheet's headers supplies the value after numeric cleaning;
if none is present the size is null. -/
def claimed_size_resolution (sh : Sheet) : List (Option ℚ) :=
  match SIZE_COLS.find? (fun c => sh.headers.contains c) with
  | some col => (getColumn sh col).map clean_numeric
  | none => sh.rows.map (fun _ => none)

/-- Render a cleaned size value as the cell add_size_column stores. -/
def sizeCell (q : Option ℚ) : Cell :=
  match q with
  | some v => Cell.num v
  | none => Cell.null

/-- df[col].notna().any(). -/
def any_notna (col : List Cell) : Bool := col.any (fun c => !c.isNull)

/-- The address_key column of normalise (cre_scrub_tool_join.py lines
95-101), computed on a renamed sheet: if an address column exists and holds
any non-null value, every row's key comes from its address cell via
astype(str).strip().lower(); otherwise, if a property_name column exists,
from its property_name cell the same way; otherwise every key is empty. -/
def sheet_keys (sh : Sheet) : List Str :=
  if sh.headers.contains ("address") && any_notna (getColumn sh ("address")) then
    (getColumn sh ("address")).map derive_key
  else if sh.headers.contains ("property_name") then
    (getColumn sh ("property_name")).map derive_key
  else
    sh.rows.map (fun _ => [])

/-- Lowercase letter or digit codepoint. -/
def isLowerAlnum (c : Nat) : Bool := (97 ≤ c && c ≤ 122) || isDigitC c

/-- The join key as the specification words it: concatenate address and city
separated by a single space, lowercase, and remove every character that is
not a lowercase letter or digit; when address is null or empty and a
property name is available, fall back to the property name lowercased and
trimmed verbatim; else the empty (unjoinable) key. -/
def claimed_join_key (address city pname : Option Str) : Str :=
  if address.getD [] ≠ [] then
    (pyLower (address.getD [] ++ 32 :: city.getD [])).filter isLowerAlnum
  else
    match pname with
    | some n => pyLower (pyStrip n)
    | none => []

/-- The classification test of the join loop (cre_scrub_tool_join.py lines
130-134): a normalised sheet is an ownership sheet when its columns include
company_name or company_phone. -/
def owner_cols_present (sh : Sheet) : Bool :=
  sh.headers.contains ("company_name") || sh.headers.contains ("company_phone")

/-- The upload loop of the join variant: normalise each sheet, then append
it to the ownership frames when the company columns are present, else to the
property frames.  Only the renaming step of normalise is classification
relevant; the added size_sf and address_key columns never introduce company
headers. -/
def split_frames : List Sheet → List Sheet × List Sheet
  | [] => ([], [])
  | sh :: rest =>
    let n := rename_sheet JOIN_COLUMN_MAP sh
    let pr := split_frames rest
    if owner_cols_present n then (pr.1, n :: pr.2) else (n :: pr.1, pr.2)

/-- Classification as the specification words it: ownership iff some row has
a non-null value in company_name or company_phone. -/
def claimed_is_ownership (sh : Sheet) : Bool :=
  (getColumn sh ("company_name")).any (fun c => !c.isNull)
    || (getColumn sh ("company_phone")).any (fun c => !c.isNull)

example :
    owner_cols_present (rename_sheet JOIN_COLUMN_MAP ⟨[("Company Name")], [[Cell.null]]⟩) = true := by
  decide

example :
    claimed_is_ownership (rename_sheet JOIN_COLUMN_MAP ⟨[("Company Name")], [[Cell.null]]⟩) = false := by
  decide

example :
    sheet_keys ⟨[("address"), ("city")], [[Cell.str (S ("123 Main St.")), Cell.str (S ("Columbia"))]]⟩
      = [S ("123 main st.")] := by decide

example :
    claimed_join_key (some (S ("123 Main St."))) (some (S ("Columbia"))) none
      = S ("123mainstcolumbia") := by decide

example :
    getColumn (add_size_column (rename_sheet TOOL_COLUMN_MAP ⟨[("size_sf")], [[Cell.str (S ("9999"))]]⟩)) ("size_sf")
      = [Cell.str (S ("9999"))] := by decide

example :
    claimed_size_resolution (rename_sheet TOOL_COLUMN_MAP ⟨[("size_sf")], [[Cell.str (S ("9999"))]]⟩)
      = [none] := by decide

example :
    getColumn (add_size_column ⟨[("RBA"), ("GLA")], [[Cell.str (S ("5,000")), Cell.str (S ("1"))]]⟩) ("size_sf")
      = [Cell.num 5000] := by decide

/-- The outcome of parsing one uploaded file: its sheets, or an unreadable
file (pd.read_csv / pd.read_excel raised). -/
abbrev LoadResult := Except Unit (List Sheet)

/-- The standalone-variant upload loop (cre_scrub_tool.py lines 127-138):
the read is wrapped in try/except, an unreadable file is reported with
st.error and skipped with continue.  Result: the sheets of the readable
files in order, and the number of reported per-file errors.  The per-sheet
transformation applied afterwards is irrelevant to failure isolation. -/
def tool_run : List LoadResult → List Sheet × Nat
  | [] => ([], 0)
  | f :: fs =>
    let rest := tool_run fs
    match f with
    | Except.error _ => (rest.1, rest.2 + 1)
    | Except.ok sheets => (sheets ++ rest.1, rest.2)

/-- The join-variant upload loop (cre_scrub_tool_join.py lines 128-134):
load_all_sheets is called with no try/except, so the first unreadable file
propagates its exception and the whole run aborts. -/
def join_collect : List LoadResult → Except Unit (List Sheet)
  | [] => Except.ok []
  | f :: fs =>
    match f with
    | Except.error e => Except.error e
    | Except.ok sheets =>
      match join_collect fs with
      | Except.error e => Except.error e
      | Except.ok rest => Except.ok (sheets ++ rest)

example :
    join_collect [Except.error (), Except.ok [⟨[("State")], [[Cell.str (S ("SC"))]]⟩]]
      = Except.error () := by decide

example :
    tool_run [Except.error (), Except.ok [⟨[("State")], [[Cell.str (S ("SC"))]]⟩]]
      = ([⟨[("State")], [[Cell.str (S ("SC"))]]⟩], 1) := by decide

theorem stripNonNumeric_no_digit {s : Str} (hs : s.all (fun c => !isDigitC c) = true) :
    (stripNonNumeric s).any isDigitC = false := by
  by_contra h
  rw [Bool.not_eq_false, List.any_eq_true] at h
  obtain ⟨c, hc, hd⟩ := h
  rw [stripNonNumeric, List.mem_filter] at hc
  rw [List.all_eq_true] at hs
  have hcs := hs c hc.1
  simp [hd] at hcs

/-- C9: join-key derivation is deterministic and idempotent: deriving the
key twice from the same cell gives the same string, and re-deriving from the
derived key returns it unchanged. -/
theorem C9_join_key_idempotent :
    ∀ c : Cell, derive_key c = derive_key c
      ∧ derive_key (Cell.str (derive_key c)) = derive_key c := by
  intro c
  exact ⟨rfl, address_key_idem (cellPyStr c)⟩

/-- C6: the numeric cleaner is total (for every cell it yields a number or
null, never an error); a numeric string with currency/formatting characters
yields the embedded value, empty/null input and purely non-numeric input
yield null, and a residue with several decimal points yields null. -/
theorem C6_clean_numeric_total :
    clean_numeric (Cell.str (S ("$12,345 SF"))) = some 12345
  ∧ clean_numeric Cell.null = none
  ∧ clean_numeric (Cell.str (S (""))) = none
  ∧ clean_numeric (Cell.str (S ("1,234.56.78"))) = none
  ∧ (∀ s : Str, s.all (fun c => !isDigitC c) = true → clean_numeric (Cell.str s) = none)
  ∧ (∀ v : Cell, clean_numeric v = none ∨ ∃ q : ℚ, clean_numeric v = some q) := by
  refine ⟨by decide, rfl, by decide, by decide, ?_, ?_⟩
  · intro s hs
    have h1 := stripNonNumeric_no_digit hs
    simp [clean_numeric, parseCleaned, h1]
  · intro v
    cases clean_numeric v with
    | none => exact Or.inl rfl
    | some q => exact Or.inr ⟨q, rfl⟩

theorem C6_clean_numeric_total_witness :
    clean_numeric (Cell.str (S ("no digits here"))) = none :=
  C6_clean_numeric_total.2.2.2.2.1 (S ("no digits here")) (by decide)

theorem parseCleaned_nonneg (t : Str) (q : ℚ) (h : parseCleaned t = some q) : 0 ≤ q := by
  unfold parseCleaned at h
  split at h
  · rw [Option.some_inj] at h
    subst h
    exact Rat.mkRat_nonneg (by positivity) _
  · simp at h

/-- C10: the numeric cleaner never returns a negative number: every cell
cleans to null or a nonnegative value; the stripping step removes a minus
sign, so the string -2000 cleans to 2000, which then passes the
[1500, 30000] size filter on an otherwise matching row. -/
theorem C10_clean_numeric_nonnegative :
    (∀ (v : Cell) (q : ℚ), clean_numeric v = some q → 0 ≤ q)
  ∧ clean_numeric (Cell.str (S ("-2000"))) = some 2000
  ∧ join_filter_row
      ⟨Cell.str (S ("Retail")), Cell.str (S ("SC")), clean_numeric (Cell.str (S ("-2000")))⟩ = true := by
  refine ⟨?_, by decide, by decide⟩
  intro v q h
  cases v with
  | null => simp [clean_numeric] at h
  | num r =>
    have h2 : some |r| = some q := h
    rw [Option.some_inj] at h2
    exact h2 ▸ abs_nonneg r
  | str s => exact parseCleaned_nonneg (stripNonNumeric s) q h

theorem C10_clean_numeric_nonnegative_witness : (0 : ℚ) ≤ 2000 :=
  C10_clean_numeric_nonnegative.1 (Cell.str (S ("-2000"))) 2000 (by decide)

/-- C5: evaluation of the filter at the failing input.  The join-variant
mask agrees with the specification's predicate on every row, including the
inclusive 1500/30000 boundaries, but the standalone variant raises instead
of excluding a row whose size is null while property_type and state match:
its mask holds pd.NA there and df.loc refuses a mask containing NA. -/
theorem C5_filter_null_size :
    tool_filter [⟨Cell.str (S ("Retail Strip")), Cell.str (S ("SC")), none⟩] = Except.error ()
  ∧ join_filter [⟨Cell.str (S ("Retail Strip")), Cell.str (S ("SC")), none⟩] = []
  ∧ (∀ r : FRow, join_filter_row r = claimed_filter_row r)
  ∧ join_filter_row ⟨Cell.str (S ("Retail")), Cell.str (S ("SC")), some 1500⟩ = true
  ∧ join_filter_row ⟨Cell.str (S ("Retail")), Cell.str (S ("SC")), some 30000⟩ = true
  ∧ join_filter_row ⟨Cell.str (S ("Retail")), Cell.str (S ("SC")), some 1499⟩ = false
  ∧ join_filter_row ⟨Cell.str (S ("Retail")), Cell.str (S ("SC")), some 30001⟩ = false := by
  refine ⟨by decide, by decide, ?_, by decide, by decide, by decide, by decide⟩
  intro r
  obtain ⟨pt, st, sz⟩ := r
  cases pt <;> rfl

/-- C1 counterexample: the joiner does not deduplicate ownership records by
join key: with one property row and two ownership rows sharing its key the
merge yields two rows, not one; and when the ownership frame list is empty
the column selection preceding the merge fails (the fallback frame has no
company columns) instead of yielding a null-ownership join. -/
theorem C1_counterexample :
    (merged [⟨S ("1 main st"), Cell.null, Cell.null, none⟩]
        [⟨S ("1 main st"), some (S ("Acme")), none, none⟩,
         ⟨S ("1 main st"), some (S ("Bravo")), none, none⟩]).length
      ≠ ([⟨S ("1 main st"), Cell.null, Cell.null, none⟩] : List PropRow).length
  ∧ select_columns REQ_OWNER_COLS EMPTY_OWNERS_COLS = Except.error () :=
  ⟨by decide, by decide⟩

/-- C1 (amended): the joiner is a plain left merge with no deduplication:
the output has, per property row, max 1 n rows where n counts the ownership
rows sharing its key (so row count is preserved exactly when no key is
shared by several ownership rows); a property row with no match appears with
null ownership fields; and with no ownership frames at all the run fails at
column selection before merging. -/
theorem C1_amended_left_join :
    (∀ (props : List PropRow) (owners : List OwnRow),
        (merged props owners).length
          = (props.map (fun p =>
              max 1 (owners.countP (fun o => o.address_key == p.address_key)))).sum)
  ∧ (∀ (props : List PropRow) (owners : List OwnRow) (p : PropRow),
        p ∈ props →
        owners.countP (fun o => o.address_key == p.address_key) = 0 →
        attachNull p ∈ merged props owners)
  ∧ select_columns REQ_OWNER_COLS EMPTY_OWNERS_COLS = Except.error () := by
  refine ⟨?_, ?_, by decide⟩
  · intro props owners
    induction props with
    | nil => rfl
    | cons p ps ih =>
      rw [merged, List.length_append, ih, List.map_cons, List.sum_cons]
      congr 1
      rw [List.countP_eq_length_filter]
      cases hf : owners.filter (fun o => o.address_key == p.address_key) with
      | nil => simp [hf]
      | cons m ms => simp [hf]
  · intro props owners p hp hcount
    revert hp
    induction props with
    | nil => intro hp; simp at hp
    | cons p0 ps ih =>
      intro hp
      rw [merged, List.mem_append]
      rcases List.mem_cons.mp hp with h | h
      · left
        subst h
        have hf : owners.filter (fun o => o.address_key == p.address_key) = [] := by
          rw [← List.length_eq_zero, ← List.countP_eq_length_filter, hcount]
        rw [hf]
        simp
      · right
        exact ih h

theorem C1_amended_left_join_witness :
    attachNull ⟨S ("k"), Cell.null, Cell.null, none⟩
      ∈ merged [⟨S ("k"), Cell.null, Cell.null, none⟩] [] :=
  C1_amended_left_join.2.1 [⟨S ("k"), Cell.null, Cell.null, none⟩] []
    ⟨S ("k"), Cell.null, Cell.null, none⟩ (by decide) (by decide)

/-- C3 counterexample: a property row and an ownership row that both carry
the empty-string join key are matched by the merge: the property row comes
out with the ownership fields attached, not with nulls. -/
theorem C3_counterexample :
    merged [⟨[], Cell.null, Cell.null, none⟩]
        [⟨[], some (S ("Acme Holdings")), none, none⟩]
      = [⟨[], Cell.null, Cell.null, none, some (S ("Acme Holdings")), none, none⟩] := by
  decide

/-- C3 (amended): the merge matches join keys by plain equality, so an
empty-string key is a joinable value like any other: a property row and an
ownership row both keyed by the empty string are merged together. -/
theorem C3_amended_empty_keys_match :
    ∀ (p : PropRow) (o : OwnRow), p.address_key = [] → o.address_key = [] →
      merged [p] [o] = [attach p o] := by
  intro p o hp ho
  simp [merged, List.filter_cons, hp, ho]

theorem C3_amended_empty_keys_match_witness :
    merged [⟨[], Cell.null, Cell.null, none⟩] [⟨[], none, some (S ("1 Corp Way")), none⟩]
      = [attach ⟨[], Cell.null, Cell.null, none⟩ ⟨[], none, some (S ("1 Corp Way")), none⟩] :=
  C3_amended_empty_keys_match ⟨[], Cell.null, Cell.null, none⟩
    ⟨[], none, some (S ("1 Corp Way")), none⟩ rfl rfl

/-- C7 counterexample: in the join workflow an unreadable first file aborts
the whole run even though a readable file with a usable sheet follows. -/
theorem C7_counterexample :
    join_collect [Except.error (), Except.ok [⟨[("State")], [[Cell.str (S ("SC"))]]⟩]]
      = Except.error () := by decide

/-- C7 (amended): only the standalone workflow isolates parse failures: its
loop keeps every readable file's sheets and counts one reported error per
unreadable file; the join workflow has no try/except around loading and an
unreadable file aborts the whole run. -/
theorem C7_amended_isolation :
    (∀ files : List LoadResult,
        (tool_run files).1
          = (files.filterMap
              (fun f => match f with | Except.ok s => some s | Except.error _ => none)).flatten
      ∧ (tool_run files).2
          = files.countP
              (fun f => match f with | Except.error _ => true | Except.ok _ => false))
  ∧ (∀ fs : List LoadResult, join_collect (Except.error () :: fs) = Except.error ()) := by
  constructor
  · intro files
    induction files with
    | nil => exact ⟨rfl, rfl⟩
    | cons f fs ih =>
      cases f with
      | error e =>
        exact ⟨by simp [tool_run, List.filterMap_cons, ih.1],
               by simp [tool_run, List.countP_cons, ih.2]⟩
      | ok sheets =>
        exact ⟨by simp [tool_run, List.filterMap_cons, ih.1],
               by simp [tool_run, List.countP_cons, ih.2]⟩
  · intro fs
    rfl

theorem colIdx_eq_none_iff {hs : List String} {h : String} :
    colIdx hs h = none ↔ h ∉ hs := by
  induction hs with
  | nil => simp [colIdx]
  | cons a t ih =>
    show (if a == h then some 0 else (colIdx t h).map (fun i => i + 1)) = none ↔ _
    cases hab : (a == h) with
    | true =>
      rw [beq_iff_eq] at hab
      simp [hab]
    | false =>
      have hne : a ≠ h := by rwa [beq_eq_false_iff_ne] at hab
      simp [Option.map_eq_none', ih, Ne.symm hne]

theorem colIdx_append_self {hs : List String} {h : String} (hnot : h ∉ hs) :
    colIdx (hs ++ [h]) h = some hs.length := by
  induction hs with
  | nil => simp [colIdx]
  | cons a t ih =>
    have ha : (a == h) = false := by
      rw [beq_eq_false_iff_ne]
      intro e
      apply hnot
      rw [← e]
      exact List.mem_cons_self a t
    have ht : h ∉ t := fun hm => hnot (List.mem_cons_of_mem a hm)
    simp [colIdx, ha, ih ht]

theorem getD_append_self (r : List Cell) (v : Cell) :
    (r ++ [v]).getD r.length Cell.null = v := by
  induction r with
  | nil => rfl
  | cons a t ih => simp [ih]

theorem getColumn_set_column_new {hs : List String} {rows : List (List Cell)}
    {h : String} {vals : List Cell} (hnot : h ∉ hs)
    (hwf : ∀ r ∈ rows, r.length = hs.length) (hlen : vals.length = rows.length) :
    getColumn (set_column ⟨hs, rows⟩ h vals) h = vals := by
  unfold set_column getColumn
  simp only [colIdx_eq_none_iff.mpr hnot, colIdx_append_self hnot]
  induction rows generalizing vals with
  | nil =>
    cases vals with
    | nil => rfl
    | cons v vs => simp at hlen
  | cons r rs ih =>
    cases vals with
    | nil => simp at hlen
    | cons v vs =>
      simp only [List.zip_cons_cons, List.map_cons]
      congr 1
      · have hr : r.length = hs.length := hwf r (List.mem_cons_self r rs)
        rw [← hr]
        exact getD_append_self r v
      · exact ih (fun x hx => hwf x (List.mem_cons_of_mem r hx)) (by simpa using hlen)

theorem getColumn_length {sh : Sheet} {col : String} (hmem : col ∈ sh.headers) :
    (getColumn sh col).length = sh.rows.length := by
  unfold getColumn
  cases hfi : colIdx sh.headers col with
  | some i => simp
  | none => exact absurd hmem (colIdx_eq_none_iff.mp hfi)

/-- C4 counterexample: a sheet whose only company_name cell is null is
classified as an ownership record set by the code (the column is present),
while the specification's value-based test classifies it as property. -/
theorem C4_counterexample :
    owner_cols_present (rename_sheet JOIN_COLUMN_MAP ⟨[("Company Name")], [[Cell.null]]⟩) = true
  ∧ claimed_is_ownership (rename_sheet JOIN_COLUMN_MAP ⟨[("Company Name")], [[Cell.null]]⟩) = false :=
  ⟨by decide, by decide⟩

/-- C4 (amended): the classifier tests column presence, not values: the
upload loop routes a normalised sheet to the ownership frames exactly when
its headers include company_name or company_phone, regardless of the cells,
and to the property frames otherwise. -/
theorem C4_amended_classification_by_presence :
    ∀ sheets : List Sheet,
      (split_frames sheets).2
        = (sheets.map (rename_sheet JOIN_COLUMN_MAP)).filter owner_cols_present
    ∧ (split_frames sheets).1
        = (sheets.map (rename_sheet JOIN_COLUMN_MAP)).filter
            (fun n => !owner_cols_present n) := by
  intro sheets
  induction sheets with
  | nil => exact ⟨rfl, rfl⟩
  | cons sh rest ih =>
    simp only [split_frames, List.map_cons, List.filter_cons]
    cases h : owner_cols_present (rename_sheet JOIN_COLUMN_MAP sh) with
    | true => simp [h, ih.1, ih.2]
    | false => simp [h, ih.1, ih.2]

/-- C2 counterexample: for address 123 Main St. and city Columbia the code
derives the key 123 main st. (address only, trimmed and lowercased), not the
specification's city-concatenated, alphanumeric-only 123mainstcolumbia. -/
theorem C2_counterexample :
    sheet_keys ⟨[("address"), ("city")],
        [[Cell.str (S ("123 Main St.")), Cell.str (S ("Columbia"))]]⟩
      = [S ("123 main st.")]
  ∧ claimed_join_key (some (S ("123 Main St."))) (some (S ("Columbia"))) none
      = S ("123mainstcolumbia")
  ∧ S ("123 main st.") ≠ S ("123mainstcolumbia") :=
  ⟨by decide, by decide, by decide⟩

/-- C2 (amended): the join key is derived from the address alone via
astype(str).strip().lower(): the city is never used and no characters are
removed; when the address column is absent or entirely null the whole sheet
falls back to the property-name column with the same trim-and-lowercase
treatment. -/
theorem C2_amended_key_from_address :
    (∀ sh : Sheet,
        (sh.headers.contains ("address") && any_notna (getColumn sh ("address"))) = true →
        sheet_keys sh = (getColumn sh ("address")).map derive_key)
  ∧ (∀ sh : Sheet,
        (sh.headers.contains ("address") && any_notna (getColumn sh ("address"))) = false →
        sh.headers.contains ("property_name") = true →
        sheet_keys sh = (getColumn sh ("property_name")).map derive_key)
  ∧ (∀ s : Str, address_key s = pyLower (pyStrip s)) := by
  refine ⟨?_, ?_, fun s => rfl⟩
  · intro sh hc
    unfold sheet_keys
    rw [if_pos hc]
  · intro sh hc hp
    unfold sheet_keys
    rw [if_neg ?hneg, if_pos hp]
    case hneg =>
      rw [hc]
      exact Bool.false_ne_true

theorem C2_amended_key_from_address_witness :
    sheet_keys ⟨[("address")], [[Cell.str (S (" 9 Oak AVE "))]]⟩
      = (getColumn ⟨[("address")], [[Cell.str (S (" 9 Oak AVE "))]]⟩ ("address")).map derive_key :=
  C2_amended_key_from_address.1 ⟨[("address")], [[Cell.str (S (" 9 Oak AVE "))]]⟩ (by decide)

/-- C8 counterexample: a sheet whose only size-related header is a literal
size_sf column (none of the priority candidates present) keeps its raw,
uncleaned value, where the specification's resolution gives null. -/
theorem C8_counterexample :
    getColumn
        (add_size_column (rename_sheet TOOL_COLUMN_MAP ⟨[("size_sf")], [[Cell.str (S ("9999"))]]⟩))
        ("size_sf")
      = [Cell.str (S ("9999"))]
  ∧ claimed_size_resolution (rename_sheet TOOL_COLUMN_MAP ⟨[("size_sf")], [[Cell.str (S ("9999"))]]⟩)
      = [none] :=
  ⟨by decide, by decide⟩

/-- C8 (amended): on every well-formed sheet with no pre-existing size_sf
column, add_size_column resolves size_sf exactly as specified: the first
priority candidate present supplies the cleaned values, and with no
candidate present the column is all null. -/
theorem C8_amended_size_resolution :
    ∀ sh : Sheet, SheetWF sh → sh.headers.contains ("size_sf") = false →
      getColumn (add_size_column sh) ("size_sf")
        = (claimed_size_resolution sh).map sizeCell := by
  intro sh hwf hnot
  have hmem : ("size_sf" : String) ∉ sh.headers := by
    intro hm
    simp [hm] at hnot
  obtain ⟨hs, rows⟩ := sh
  unfold add_size_column claimed_size_resolution
  cases hf : SIZE_COLS.find? (fun c => Sheet.headers ⟨hs, rows⟩ |>.contains c) with
  | some col =>
    have hcol : (hs.contains col) = true := List.find?_some hf
    have hcolmem : col ∈ hs := by simpa using hcol
    simp only
    rw [if_pos ?hc]
    case hc =>
      show ((set_column ⟨hs, rows⟩ ("size_sf") _).headers.contains ("size_sf")) = true
      unfold set_column
      simp only [colIdx_eq_none_iff.mpr hmem]
      simp
    rw [getColumn_set_column_new hmem hwf ?hl, List.map_map]
    case hl =>
      rw [List.length_map]
      exact getColumn_length hcolmem
    rfl
  | none =>
    simp only
    rw [if_neg ?hc]
    case hc =>
      simpa using hmem
    rw [getColumn_set_column_new hmem hwf (by simp), List.map_map]
    rfl

theorem C8_amended_size_resolution_witness :
    getColumn (add_size_column ⟨[("RBA")], [[Cell.str (S ("5,000"))]]⟩) ("size_sf")
      = (claimed_size_resolution ⟨[("RBA")], [[Cell.str (S ("5,000"))]]⟩).map sizeCell :=
  C8_amended_size_resolution ⟨[("RBA")], [[Cell.str (S ("5,000"))]]⟩ (by decide) (by decide)

end CreScrub
